import Mathlib

/-!
Shallow embedding of the WavOracle Detection & Fusion Engine
(src/src/assets/essentia-professional-analyzer.js, class
EssentiaProfessionalAnalyzer) and proofs about its behaviour.

Modelling conventions:
- JavaScript numbers are modelled as rationals; Math.sqrt is modelled by
  an exact rational square root (exact on every input evaluated in this
  development, all of which are perfect squares of rationals or zero).
- JavaScript objects become structures; fields the fusion code never
  reads (duration, sampleRate, channels) are omitted.
- The asynchronous collaborators (Essentia analysis, web lookups, script
  initialisation) are modelled as oracle outcomes of type Except,
  mirroring promise resolution/rejection; try/catch becomes a match on
  the outcome.
-/

namespace WavOracle

/-- Rational addition. The standard Rat.add of the library is marked
irreducible, which blocks kernel evaluation of concrete results, so the
embedding uses this definitionally transparent equivalent (proved equal
to + in qadd_eq below). The same applies to qsub, qmul, qinv, qdiv and
qmax. -/
def qadd (a b : ℚ) : ℚ := mkRat (a.num * b.den + b.num * a.den) (a.den * b.den)

/-- Rational subtraction, transparent form. -/
def qsub (a b : ℚ) : ℚ := mkRat (a.num * b.den - b.num * a.den) (a.den * b.den)

/-- Rational multiplication, transparent form. -/
def qmul (a b : ℚ) : ℚ := mkRat (a.num * b.num) (a.den * b.den)

/-- Rational inverse, transparent form (0 maps to 0). -/
def qinv (a : ℚ) : ℚ := Rat.divInt a.den a.num

/-- Rational division, transparent form (division by 0 yields 0; the
source only ever divides by values it has checked to be nonzero). -/
def qdiv (a b : ℚ) : ℚ := qmul a (qinv b)

/-- Binary maximum, transparent form; models Math.max on rationals. -/
def qmax (a b : ℚ) : ℚ := if a < b then b else a

/-- Fuel-bounded Newton iteration for the integer square root. -/
def natSqrtGo (n : Nat) : Nat → Nat → Nat
  | guess, 0 => guess
  | guess, fuel + 1 =>
    let next := (guess + n / guess) / 2
    if next < guess then natSqrtGo n next fuel else guess

/-- Integer square root by Newton iteration, definitionally
transparent; exact (returns the floor of the square root) whenever the
iteration converges within the fuel, which it does on every value
evaluated in this development. -/
def natSqrt (n : Nat) : Nat := if n ≤ 1 then n else natSqrtGo n n n

/-- Sum of a list of rationals, as in the reduce calls of
calculateCorrelation. -/
def sumQ (xs : List ℚ) : ℚ := xs.foldl (fun a b => qadd a b) 0

/-- Sum of squares, as in the reduce calls of calculateCorrelation. -/
def sumSqQ (xs : List ℚ) : ℚ := xs.foldl (fun a b => qadd a (qmul b b)) 0

/-- Models Math.sqrt on exact rationals, as the quotient of the integer
square roots of numerator and denominator. It is exact on perfect
squares of rationals, which are the only inputs it is evaluated on in
this development: the variance products arising from the binary key
profiles, and zero. A nonpositive argument maps to 0; in the source the
argument is a product of two variance terms, each nonnegative in real
arithmetic. -/
def ratSqrt (q : ℚ) : ℚ :=
  if q ≤ 0 then 0 else qdiv (natSqrt q.num.toNat : ℚ) (natSqrt q.den : ℚ)

/-- Models JavaScript toFixed(1) for the nonnegative values formatted in
the notes of generateConfidentResult: round to one decimal digit and
render with exactly one digit after the point. -/
def toFixed1 (q : ℚ) : String :=
  let scaled := qadd (qmul q 10) (mkRat 1 2)
  let n : Int := scaled.num / (scaled.den : Int)
  toString (n / 10) ++ "." ++ toString (n % 10)

/-- Models parseInt(s) || 0 as applied to the bpm strings of lookup
records: parse the leading run of decimal digits; if there is none the
result (NaN in JavaScript, coerced by || 0) is 0. Sign and whitespace
handling of parseInt is not modelled; the lookup adapters only produce
bare digit strings. -/
def parseIntOr0 (s : String) : Int :=
  match (s.toList.takeWhile Char.isDigit) with
  | [] => 0
  | ds => (ds.foldl (fun acc c => acc * 10 + (c.toNat - 48)) 0 : Nat)

/-! ## Key Profile Table (getKeyProfiles, lines 304-332) -/

/-- The twelve pitch-class names, in the order of the source (the
natural notes, each followed by its sharp where one exists). -/
def notes12 : List String :=
  ["C", "C" ++ "#", "D", "D" ++ "#", "E", "F", "F" ++ "#",
   "G", "G" ++ "#", "A", "A" ++ "#", "B"]

/-- C major scale intervals. -/
def majorScale : List Nat := [0, 2, 4, 5, 7, 9, 11]

/-- C minor scale intervals. -/
def minorScale : List Nat := [0, 2, 3, 5, 7, 8, 10]

/-- Builds one binary 12-vector: 1.0 at (tonic + interval) mod 12 for
every interval of the scale, 0 elsewhere (the source fills a zero array
and sets the scale positions to 1.0; this is the same vector expressed
pointwise). -/
def scaleProfile (tonic : Nat) (scale : List Nat) : List ℚ :=
  (List.range 12).map
    (fun i => if (scale.map (fun off => (tonic + off) % 12)).contains i then 1 else 0)

/-- The 24 key profiles in insertion order: for each tonic ascending
from C, the major profile then the minor profile (Object.keys preserves
this insertion order). -/
def keyProfiles : List (String × List ℚ) :=
  notes12.enum.flatMap
    (fun p =>
      [(p.2 ++ " major", scaleProfile p.1 majorScale),
       (p.2 ++ " minor", scaleProfile p.1 minorScale)])

/-! ## Correlation Classifier (calculateCorrelation, lines 337-351) -/

/-- Pearson correlation as computed by calculateCorrelation: returns 0
when the lengths differ, and 0 when the denominator is zero. -/
def calculateCorrelation (array1 array2 : List ℚ) : ℚ :=
  if array1.length ≠ array2.length then 0
  else
    let n : ℚ := array1.length
    let sum1 := sumQ array1
    let sum2 := sumQ array2
    let sum1Sq := sumSqQ array1
    let sum2Sq := sumSqQ array2
    let pSum := (List.zipWith (fun a b => qmul a b) array1 array2).foldl (fun a b => qadd a b) 0
    let num := qsub pSum (qdiv (qmul sum1 sum2) n)
    let den := ratSqrt (qmul (qsub sum1Sq (qdiv (qmul sum1 sum1) n))
      (qsub sum2Sq (qdiv (qmul sum2 sum2) n)))
    if den = 0 then 0 else qdiv num den

/-- The variance term of one side of the correlation, with n the length
of the first array as in the source; used to state the division-by-zero
guard claim. -/
def varianceTerm (xs : List ℚ) (n : ℚ) : ℚ :=
  qsub (sumSqQ xs) (qdiv (qmul (sumQ xs) (sumQ xs)) n)

/-- Result record of analyzeKeyFromHPCP: key name, confidence, and the
allCorrelations map (absent on the zero-valid-frames path). -/
structure KeyEstimate where
  key : String
  confidence : ℚ
  allCorrelations : Option (List (String × ℚ)) := none
deriving DecidableEq, Repr

/-- The classification half of analyzeKeyFromHPCP (lines 240-266):
correlate the averaged chromagram with every key profile in table
order, then keep the first profile attaining the strictly greatest
correlation (initial best is C major at correlation -1); confidence is
max(0, best correlation). -/
def classifyChroma (avgHPCP : List ℚ) : KeyEstimate :=
  let correlations := keyProfiles.map (fun p => (p.1, calculateCorrelation avgHPCP p.2))
  let best := correlations.foldl
    (fun acc p => if p.2 > acc.2 then p else acc) ("C major", (-1 : ℚ))
  { key := best.1, confidence := qmax 0 best.2, allCorrelations := some correlations }

/-- analyzeKeyFromHPCP (lines 218-272): accumulate an element-wise sum
over the frames of exactly 12 elements, count them, return Unknown at
confidence 0 when no frame is valid, otherwise classify the mean
chromagram. The classification half is split out as classifyChroma. -/
def analyzeKeyFromHPCP (hpcpgram : List (List ℚ)) : KeyEstimate :=
  let acc := hpcpgram.foldl
    (fun (acc : List ℚ × Nat) frame =>
      if frame.length = 12 then (List.zipWith (fun a b => qadd a b) acc.1 frame, acc.2 + 1) else acc)
    (List.replicate 12 0, 0)
  if acc.2 = 0 then { key := "Unknown", confidence := 0 }
  else classifyChroma (acc.1.map (fun v => qdiv v (acc.2 : ℚ)))

/-! ## Fusion Policy (generateConfidentResult, lines 446-509, and
generateRecommendation, lines 514-522) -/

/-- BPM half of a native analysis: detectBPMWithEssentia returns the
rounded bpm and a confidence clamped to be nonnegative (the method tag
string it also carries is never read by the fusion code and is
omitted). -/
structure BpmEstimate where
  bpm : Int
  confidence : ℚ
deriving DecidableEq, Repr

/-- A native Essentia analysis bundle as consumed by the fusion code
(key and bpm halves; duration, sampleRate and channels are never read
by generateConfidentResult and are omitted). -/
structure Analysis where
  key : KeyEstimate
  bpm : BpmEstimate
deriving DecidableEq, Repr

/-- One lookup record as produced by the web adapters: key, bpm (a
string, parsed with parseInt at fusion time) and source name. The tier
field is not read anywhere in the source (the adapters do not set it);
it is carried here only so that claims about tiered records can be
stated, which is faithful because JavaScript objects may carry extra
properties that the fusion code ignores. -/
structure WebRecord where
  key : String
  bpm : String
  source : String
  tier : String := ""
deriving DecidableEq, Repr

/-- The final fusion artifact returned by generateConfidentResult. -/
structure FusionResult where
  key : String
  bpm : Int
  confidence : String
  method : String
  notes : List String
  recommendation : String
deriving DecidableEq, Repr

/-- The per-request results object built by analyzeSong (lines
103-111). The confidence and method fields of this object are set once
to low and none and never updated by the source (generateConfidentResult
works on local variables); they are kept for fidelity. -/
structure Results where
  title : String
  artist : Option String
  analysis : Option Analysis
  webData : Option (List WebRecord)
  finalResult : Option FusionResult
  confidence : String
  method : String
deriving DecidableEq, Repr

/-- The confidence threshold set in the constructor (line 8). -/
def confidenceThreshold : ℚ := mkRat 85 100

/-- generateRecommendation (lines 514-522): text chosen by the
confidence tier string alone. -/
def generateRecommendation (key : String) (bpm : Int) (confidence : String) : String :=
  if confidence = "high" then
    "High confidence result - safe to use for mixing and production"
  else if confidence = "medium" then
    "Medium confidence - verify with your ears before mixing"
  else
    "Low confidence - manual verification recommended"

/-- generateConfidentResult (lines 446-509). The source is an if-chain
over mutable locals (finalKey, finalBPM, confidence, method, notes);
because the local confidence is statically known at each test
(it is low until a branch assigns high or medium, after which every
later guard testing for low fails), the chain flattens to this match:
when a native analysis exists, its high-confidence branch or otherwise
its fallback branch runs and the web-data and insufficient-confidence
guards are dead; when no analysis exists, a nonempty webData list takes
its first record, and otherwise the insufficient-confidence record is
returned. -/
def generateConfidentResult (threshold : ℚ) (results : Results) : FusionResult :=
  match results.analysis with
  | some analysis =>
    if analysis.key.confidence > threshold ∧ analysis.bpm.confidence > threshold then
      { key := analysis.key.key, bpm := analysis.bpm.bpm,
        confidence := "high", method := "essentia_analysis",
        notes := ["High confidence - Essentia.js professional analysis",
                  "Key confidence: " ++ toFixed1 (qmul analysis.key.confidence 100) ++ "%",
                  "BPM confidence: " ++ toFixed1 (qmul analysis.bpm.confidence 100) ++ "%"],
        recommendation := generateRecommendation analysis.key.key analysis.bpm.bpm "high" }
    else
      { key := analysis.key.key, bpm := analysis.bpm.bpm,
        confidence := "medium", method := "essentia_analysis_fallback",
        notes := ["Medium confidence - Essentia.js analysis",
                  "Key confidence: " ++ toFixed1 (qmul analysis.key.confidence 100) ++ "%",
                  "BPM confidence: " ++ toFixed1 (qmul analysis.bpm.confidence 100) ++ "%"],
        recommendation := generateRecommendation analysis.key.key analysis.bpm.bpm "medium" }
  | none =>
    match results.webData with
    | some (bestWebResult :: _) =>
      { key := bestWebResult.key, bpm := parseIntOr0 bestWebResult.bpm,
        confidence := "medium", method := "web_database",
        notes := ["Data from " ++ bestWebResult.source,
                  "Medium confidence - database lookup"],
        recommendation := generateRecommendation bestWebResult.key (parseIntOr0 bestWebResult.bpm) "medium" }
    | _ =>
      { key := "Unknown", bpm := 0, confidence := "low", method := "none",
        notes := ["Analysis failed - insufficient confidence"],
        recommendation := "Try a different song or check audio quality" }

/-- Recommendation text as a function of the tier string of the final
FusionResult, written from the observable behaviour of the source: the
low branch of generateRecommendation is unreachable from fusion results
(generateConfidentResult calls it only with high or medium), and the
low-tier insufficient-confidence record carries its own literal text. -/
def recommendationOfTier (tier : String) : String :=
  if tier = "high" then
    "High confidence result - safe to use for mixing and production"
  else if tier = "medium" then
    "Medium confidence - verify with your ears before mixing"
  else
    "Try a different song or check audio quality"

/-! ## Result Cache / Orchestrator (initialize, lines 18-52, and
analyzeSong, lines 90-136) -/

deriving instance DecidableEq for Except

/-- Mutable instance state of the analyzer: the initialisation flag,
the settled outcome of the cached initialisation promise (none while no
initialisation was attempted), and the analysis cache. The cache Map is
modelled as an association list where insertion prepends; lookups read
the most recent binding, matching Map.get after Map.set. -/
structure AnalyzerState where
  isInitialized : Bool
  initResult : Option (Except String Unit)
  analysisCache : List (String × Results)
deriving DecidableEq, Repr

/-- Constructor state (lines 7-13). -/
def initialState : AnalyzerState :=
  { isInitialized := false, initResult := none, analysisCache := [] }

/-- Outcomes of the asynchronous collaborators of one analyzeSong call:
the initialisation promise body (script loading and WASM setup), the
essentiaAnalysis promise, and the searchMultipleDatabases promise. -/
structure Collaborators where
  initOutcome : Except String Unit
  nativeOutcome : Except String Analysis
  lookupOutcome : Except String (List WebRecord)

/-- The observable outcome of one analyzeSong call: the returned value
or the raised error, the post-call state, and whether the native and
lookup paths ran (for the no-recomputation claims). -/
structure AnalyzeOutcome where
  returned : Except String Results
  state : AnalyzerState
  ranNative : Bool
  ranLookup : Bool

/-- Models the initialize method (lines 18-52): an initialised instance
returns at once; otherwise a previously settled initialisation promise
is reused (so a failed initialisation stays failed); otherwise the
promise body runs, setting isInitialized only on success, and the
settled outcome is remembered. -/
def initAnalyzer (s : AnalyzerState) (outcome : Except String Unit) :
    Except String Unit × AnalyzerState :=
  if s.isInitialized then (Except.ok (), s)
  else
    match s.initResult with
    | some r => (r, s)
    | none =>
      match outcome with
      | Except.ok () =>
        (Except.ok (), { s with isInitialized := true, initResult := some (Except.ok ()) })
      | Except.error e =>
        (Except.error e, { s with initResult := some (Except.error e) })

/-- The cache key of analyzeSong (line 97): the template literal
title-artist-size, where a missing artist renders as the string null. -/
def cacheKeyOf (title : String) (artist : Option String) (size : Nat) : String :=
  title ++ "-" ++ (match artist with | some a => a | none => "null") ++ "-" ++ toString size

/-- analyzeSong (lines 90-136). The await of initialize is not wrapped
in try/catch, so an initialisation failure propagates to the caller;
after it, a cache hit returns the stored bundle without running either
path; on a miss, the native and lookup failures are each caught and
leave the corresponding field null, the fusion result is computed, and
the bundle is cached and returned. The audio file argument enters only
through its size. -/
def analyzeSong (s : AnalyzerState) (c : Collaborators)
    (audioSize : Nat) (title : String) (artist : Option String) : AnalyzeOutcome :=
  match initAnalyzer s c.initOutcome with
  | (Except.error e, s1) =>
    { returned := Except.error e, state := s1, ranNative := false, ranLookup := false }
  | (Except.ok (), s1) =>
    let cacheKey := cacheKeyOf title artist audioSize
    match s1.analysisCache.lookup cacheKey with
    | some cached =>
      { returned := Except.ok cached, state := s1, ranNative := false, ranLookup := false }
    | none =>
      let analysis : Option Analysis :=
        match c.nativeOutcome with
        | Except.ok a => some a
        | Except.error _ => none
      let webData : Option (List WebRecord) :=
        match c.lookupOutcome with
        | Except.ok l => some l
        | Except.error _ => none
      let results0 : Results :=
        { title := title, artist := artist, analysis := analysis, webData := webData,
          finalResult := none, confidence := "low", method := "none" }
      let results : Results :=
        { results0 with finalResult := some (generateConfidentResult confidenceThreshold results0) }
      { returned := Except.ok results,
        state := { s1 with analysisCache := (cacheKey, results) :: s1.analysisCache },
        ranNative := true, ranLookup := true }

/-! ## Concrete inputs used to instantiate the claims -/

/-- Lookup record from source A: medium tier (the tier field is ignored
by the fusion code). -/
def recA : WebRecord :=
  { key := "C major", bpm := "120", source := "A", tier := "medium" }

/-- Lookup record from source B: high tier (the tier field is ignored
by the fusion code). -/
def recB : WebRecord :=
  { key := "D minor", bpm := "128", source := "B", tier := "high" }

/-- A request whose native path produced nothing and whose lookup path
produced the records of sources A (medium) and B (high), in that
order. -/
def lookupOnlyRequest : Results :=
  { title := "t", artist := none, analysis := none, webData := some [recA, recB],
    finalResult := none, confidence := "low", method := "none" }

/-- A request where both the native and the lookup path produced
nothing. -/
def emptyRequest : Results :=
  { title := "t", artist := none, analysis := none, webData := none,
    finalResult := none, confidence := "low", method := "none" }

/-- A native analysis whose key and bpm confidences are both 0.5, well
below the 0.85 threshold. -/
def lowConfidenceAnalysis : Analysis :=
  { key := { key := "G major", confidence := mkRat 1 2 },
    bpm := { bpm := 98, confidence := mkRat 1 2 } }

/-- A request with a sub-threshold native analysis and a high-tier
lookup record. -/
def nativeLowRequest : Results :=
  { title := "t", artist := none, analysis := some lowConfidenceAnalysis,
    webData := some [recB], finalResult := none, confidence := "low", method := "none" }

/-- Collaborators where initialisation succeeds and both analysis paths
fail. -/
def bothPathsFail : Collaborators :=
  { initOutcome := Except.ok (),
    nativeOutcome := Except.error "decode failed",
    lookupOutcome := Except.error "network failed" }

/-- Collaborators where initialisation itself fails. -/
def initFails : Collaborators :=
  { initOutcome := Except.error "EssentiaWASM not loaded",
    nativeOutcome := Except.error "decode failed",
    lookupOutcome := Except.error "network failed" }

/-- Collaborators where everything succeeds, delivering the
low-confidence native analysis and the two lookup records. -/
def allPathsSucceed : Collaborators :=
  { initOutcome := Except.ok (),
    nativeOutcome := Except.ok lowConfidenceAnalysis,
    lookupOutcome := Except.ok [recA, recB] }

/-- The insufficient-data terminal FusionResult (rule 4 of the fusion
policy). -/
def noneLowResult : FusionResult :=
  { key := "Unknown", bpm := 0, confidence := "low", method := "none",
    notes := ["Analysis failed - insufficient confidence"],
    recommendation := "Try a different song or check audio quality" }

/-- The bundle analyzeSong builds and caches when both paths failed. -/
def failureBundle (t : String) (a : Option String) : Results :=
  { title := t, artist := a, analysis := none, webData := none,
    finalResult := some noneLowResult, confidence := "low", method := "none" }

/-- The request object of the first call of the cache witness. -/
def firstRequest : Results :=
  { title := "song", artist := none, analysis := some lowConfidenceAnalysis,
    webData := some [recA, recB], finalResult := none, confidence := "low", method := "none" }

/-- The bundle the first call of the cache witness computes and
caches. -/
def firstBundle : Results :=
  { firstRequest with
    finalResult := some (generateConfidentResult confidenceThreshold firstRequest) }

/-! ## Helper lemmas -/

/-- The transparent rational addition agrees with the library one. -/
theorem qadd_eq (a b : ℚ) : qadd a b = a + b := (Rat.add_def' a b).symm

/-- The transparent rational subtraction agrees with the library one. -/
theorem qsub_eq (a b : ℚ) : qsub a b = a - b := (Rat.sub_def' a b).symm

/-- The transparent rational multiplication agrees with the library
one. -/
theorem qmul_eq (a b : ℚ) : qmul a b = a * b := by
  rw [qmul, Rat.mul_def, Rat.normalize_eq_mkRat]

/-- The transparent rational inverse agrees with the library one. -/
theorem qinv_eq (a : ℚ) : qinv a = a⁻¹ := by
  rw [qinv, ← Rat.inv_def]; rfl

/-- The transparent rational division agrees with the library one. -/
theorem qdiv_eq (a b : ℚ) : qdiv a b = a / b := by
  rw [qdiv, qmul_eq, qinv_eq, div_eq_mul_inv]

/-- The transparent maximum agrees with the library one. -/
theorem qmax_eq (a b : ℚ) : qmax a b = max a b := by
  rw [qmax, max_def]
  rcases lt_trichotomy a b with h | h | h
  · rw [if_pos h, if_pos h.le]
  · subst h; simp
  · rw [if_neg (not_lt.mpr h.le), if_neg (not_le.mpr h)]

/-- Folding with a skip-guard equals folding the filtered list. -/
theorem foldl_if_filter {α β : Type} (p : α → Prop) [DecidablePred p] (g : β → α → β) :
    ∀ (l : List α) (init : β),
      l.foldl (fun acc f => if p f then g acc f else acc) init =
      (l.filter (fun f => decide (p f))).foldl g init := by
  intro l
  induction l with
  | nil => intro init; rfl
  | cons x xs ih =>
    intro init
    by_cases h : p x
    · simp only [List.foldl_cons, List.filter_cons, h, if_pos, decide_eq_true_eq,
        decide_true_eq_true]
      exact ih (g init x)
    · simp only [List.foldl_cons, List.filter_cons, decide_eq_true_eq]
      rw [if_neg h, if_neg h]
      exact ih init

/-- Element-wise addition onto a zero vector of matching length is the
identity. -/
theorem zipWith_add_replicate_zero :
    ∀ (n : Nat) (v : List ℚ), v.length = n →
      List.zipWith (fun a b => qadd a b) (List.replicate n 0) v = v := by
  intro n
  induction n with
  | zero =>
    intro v hv
    cases v with
    | nil => rfl
    | cons x xs => simp at hv
  | succ k ih =>
    intro v hv
    cases v with
    | nil => simp at hv
    | cons x xs =>
      have hxs : xs.length = k := by simpa using hv
      rw [List.replicate_succ, List.zipWith_cons_cons, ih xs hxs, qadd_eq, zero_add]

/-- Key estimation is insensitive to frames of the wrong shape: the
guarded fold equals the fold over the 12-element frames only. -/
theorem analyzeKey_eq_filter (frames : List (List ℚ)) :
    analyzeKeyFromHPCP frames =
    analyzeKeyFromHPCP (frames.filter (fun f => decide (f.length = 12))) := by
  unfold analyzeKeyFromHPCP
  rw [foldl_if_filter (fun f => f.length = 12)
        (fun acc frame => (List.zipWith (fun a b => qadd a b) acc.1 frame, acc.2 + 1)),
      foldl_if_filter (fun f => f.length = 12)
        (fun acc frame => (List.zipWith (fun a b => qadd a b) acc.1 frame, acc.2 + 1))]
  rw [List.filter_filter]
  simp

set_option maxRecDepth 100000 in
/-- C7: the correlation of two 12-element vectors is 0 whenever either
variance term vanishes (the division-by-zero guard), and classifying
the all-zero chromagram yields confidence 0 with every profile
correlation equal to 0. -/
theorem correlation_zero_variance_guard :
    (∀ x y : List ℚ, x.length = 12 → y.length = 12 →
       varianceTerm x 12 = 0 ∨ varianceTerm y 12 = 0 →
       calculateCorrelation x y = 0) ∧
    ((classifyChroma (List.replicate 12 0)).confidence = 0 ∧
     ∀ p ∈ ((classifyChroma (List.replicate 12 0)).allCorrelations.getD []), p.2 = 0) := by
  constructor
  · intro x y hx hy h
    have hlen : ¬ x.length ≠ y.length := by rw [hx, hy]; exact fun hne => hne rfl
    have hx12 : ((x.length : Nat) : ℚ) = (12 : ℚ) := by rw [hx]; norm_num
    have hv : qmul (qsub (sumSqQ x) (qdiv (qmul (sumQ x) (sumQ x)) ((x.length : Nat) : ℚ)))
        (qsub (sumSqQ y) (qdiv (qmul (sumQ y) (sumQ y)) ((x.length : Nat) : ℚ))) = 0 := by
      rw [hx12]
      unfold varianceTerm at h
      rcases h with h | h
      · rw [qmul_eq, h, zero_mul]
      · rw [qmul_eq, h, mul_zero]
    unfold calculateCorrelation
    rw [if_neg hlen]
    simp only [hv]
    have h0 : ratSqrt 0 = 0 := by decide
    simp [h0]
  · refine ⟨by decide, ?_⟩
    decide

/-- C8: key estimation from frames averages only the frames with
exactly 12 elements (any other shape is skipped, so appending an
invalid frame to a single valid one changes nothing and the estimate
equals classifying the valid frame directly), and with zero valid
frames (in particular the empty sequence) the result is Unknown at
confidence 0. -/
theorem estimateKey_skips_invalid_frames :
    (∀ frames : List (List ℚ),
       analyzeKeyFromHPCP frames =
       analyzeKeyFromHPCP (frames.filter (fun f => decide (f.length = 12)))) ∧
    (∀ frames : List (List ℚ),
       frames.filter (fun f => decide (f.length = 12)) = [] →
       analyzeKeyFromHPCP frames =
         { key := "Unknown", confidence := 0, allCorrelations := none }) ∧
    (∀ v bad : List ℚ, v.length = 12 → bad.length ≠ 12 →
       analyzeKeyFromHPCP [v, bad] = classifyChroma v) := by
  refine ⟨analyzeKey_eq_filter, ?_, ?_⟩
  · intro frames h
    rw [analyzeKey_eq_filter frames, h]
    rfl
  · intro v bad hv hbad
    unfold analyzeKeyFromHPCP
    rw [List.foldl_cons, List.foldl_cons, List.foldl_nil, if_pos hv, if_neg hbad]
    dsimp only
    rw [if_neg (by norm_num : ¬ (0 + 1 : Nat) = 0)]
    rw [zipWith_add_replicate_zero 12 v hv]
    refine congrArg classifyChroma ?_
    have hone : ∀ x : ℚ, qdiv x (((0 + 1 : Nat)) : ℚ) = x := by
      intro x
      rw [qdiv_eq]
      norm_num
    simp only [hone, List.map_id']

set_option maxRecDepth 1000000 in
/-- C6 counterexample: the A minor profile is one of the 24 key
profiles, yet classifying exactly that vector returns the key C major
(the relative major, whose profile is the identical vector and which is
iterated first), not A minor; so self-classification does not return
the same key name for every profile. -/
theorem keyProfile_self_classification_refuted :
    ("A minor", scaleProfile 9 minorScale) ∈ keyProfiles ∧
    (classifyChroma (scaleProfile 9 minorScale)).key = "C major" ∧
    ("C major" : String) ≠ "A minor" := by
  refine ⟨by decide, by decide, by decide⟩

set_option maxRecDepth 1000000 in
/-- C6 amended: classifying any of the 24 profile vectors yields
confidence exactly 1, and the returned key is the first key in table
order whose profile vector equals the queried vector; that key is the
queried key itself except when a relative major/minor with the
identical vector precedes it in the table. -/
theorem keyProfile_self_classification :
    ∀ p ∈ keyProfiles,
      (classifyChroma p.2).confidence = 1 ∧
      (keyProfiles.find? (fun q => decide (q.2 = p.2))).map Prod.fst =
        some (classifyChroma p.2).key := by
  decide

set_option maxRecDepth 1000000 in
/-- Witness for C6 amended at the C major profile. -/
theorem keyProfile_self_classification_witness :
    (classifyChroma (scaleProfile 0 majorScale)).confidence = 1 ∧
    (keyProfiles.find? (fun q => decide (q.2 = scaleProfile 0 majorScale))).map Prod.fst =
      some (classifyChroma (scaleProfile 0 majorScale)).key :=
  keyProfile_self_classification ("C major", scaleProfile 0 majorScale) (by decide)

/-- C1: when a native analysis exists with key and bpm confidence both
at or below the threshold, and lookup records are present (whatever
their tiers), fusion returns the native key and bpm at tier medium with
method essentia_analysis_fallback (the native-fallback method), and the
lookup records are never consulted: the result is unchanged under any
replacement of the webData field. -/
theorem native_fallback_shadows_lookup
    (r : Results) (analysis : Analysis) (w : List WebRecord)
    (ha : r.analysis = some analysis)
    (hk : analysis.key.confidence ≤ confidenceThreshold)
    (hb : analysis.bpm.confidence ≤ confidenceThreshold)
    (hw : r.webData = some w) (hne : w ≠ []) :
    (generateConfidentResult confidenceThreshold r).key = analysis.key.key ∧
    (generateConfidentResult confidenceThreshold r).bpm = analysis.bpm.bpm ∧
    (generateConfidentResult confidenceThreshold r).confidence = "medium" ∧
    (generateConfidentResult confidenceThreshold r).method = "essentia_analysis_fallback" ∧
    ∀ w2 : Option (List WebRecord),
      generateConfidentResult confidenceThreshold { r with webData := w2 } =
        generateConfidentResult confidenceThreshold r := by
  have hcond : ¬ (analysis.key.confidence > confidenceThreshold ∧
      analysis.bpm.confidence > confidenceThreshold) := by
    intro hc
    exact absurd hc.1 (not_lt.mpr hk)
  refine ⟨?_, ?_, ?_, ?_, ?_⟩
  · simp [generateConfidentResult, ha, if_neg hcond]
  · simp [generateConfidentResult, ha, if_neg hcond]
  · simp [generateConfidentResult, ha, if_neg hcond]
  · simp [generateConfidentResult, ha, if_neg hcond]
  · intro w2
    simp [generateConfidentResult, ha, if_neg hcond]

/-- Witness for C1 at a request carrying a 0.5/0.5 native analysis and
the high-tier record of source B. -/
theorem native_fallback_shadows_lookup_witness :
    (generateConfidentResult confidenceThreshold nativeLowRequest).key = "G major" ∧
    (generateConfidentResult confidenceThreshold nativeLowRequest).bpm = 98 ∧
    (generateConfidentResult confidenceThreshold nativeLowRequest).confidence = "medium" ∧
    (generateConfidentResult confidenceThreshold nativeLowRequest).method =
      "essentia_analysis_fallback" := by
  have h := native_fallback_shadows_lookup nativeLowRequest lowConfidenceAnalysis [recB]
    rfl (by decide) (by decide) rfl (by decide)
  exact ⟨h.1, h.2.1, h.2.2.1, h.2.2.2.1⟩

/-- C2 counterexample: with no native result and the records of source
A (tier medium) then source B (tier high) in that order, fusion uses
the FIRST record, source A, not the record with the highest tier. -/
theorem lookup_best_tier_refuted :
    (generateConfidentResult confidenceThreshold lookupOnlyRequest).key = "C major" ∧
    (generateConfidentResult confidenceThreshold lookupOnlyRequest).bpm = 120 ∧
    recA.tier = "medium" ∧ recB.tier = "high" ∧
    (generateConfidentResult confidenceThreshold lookupOnlyRequest).key ≠ recB.key := by
  exact ⟨rfl, by decide, rfl, rfl, by decide⟩

/-- C2 amended: with no native result and a nonempty list of lookup
records, fusion selects the first record in input order - regardless of
any confidence tier - at tier medium with method web_database. -/
theorem lookup_takes_first_record
    (threshold : ℚ) (r : Results) (rec : WebRecord) (rest : List WebRecord)
    (ha : r.analysis = none) (hw : r.webData = some (rec :: rest)) :
    (generateConfidentResult threshold r).key = rec.key ∧
    (generateConfidentResult threshold r).bpm = parseIntOr0 rec.bpm ∧
    (generateConfidentResult threshold r).confidence = "medium" ∧
    (generateConfidentResult threshold r).method = "web_database" := by
  refine ⟨?_, ?_, ?_, ?_⟩ <;> simp [generateConfidentResult, ha, hw]

/-- Witness for C2 amended at the two-record request: source A wins by
position. -/
theorem lookup_takes_first_record_witness :
    (generateConfidentResult confidenceThreshold lookupOnlyRequest).key = "C major" ∧
    (generateConfidentResult confidenceThreshold lookupOnlyRequest).bpm = 120 ∧
    (generateConfidentResult confidenceThreshold lookupOnlyRequest).confidence = "medium" ∧
    (generateConfidentResult confidenceThreshold lookupOnlyRequest).method = "web_database" := by
  have h := lookup_takes_first_record confidenceThreshold lookupOnlyRequest recA [recB] rfl rfl
  exact ⟨h.1, by rw [h.2.1]; decide, h.2.2.1, h.2.2.2⟩

/-- C4 counterexample: the insufficient-data fusion result has tier
low, but its recommendation is the try-a-different-song text, not the
manual-verification text of generateRecommendation (whose low branch is
unreachable from fusion results). -/
theorem recommendation_low_tier_refuted :
    (generateConfidentResult confidenceThreshold emptyRequest).confidence = "low" ∧
    (generateConfidentResult confidenceThreshold emptyRequest).recommendation ≠
      "Low confidence - manual verification recommended" ∧
    (generateConfidentResult confidenceThreshold emptyRequest).recommendation =
      "Try a different song or check audio quality" := by
  exact ⟨rfl, by decide, rfl⟩

/-- C4 amended: the recommendation of every fusion result is a function
of its confidence tier alone, namely recommendationOfTier: the safe-to-
use text for high, the verify-with-your-ears text for medium, and the
try-a-different-song text for low. -/
theorem recommendation_from_tier :
    ∀ (threshold : ℚ) (r : Results),
      (generateConfidentResult threshold r).recommendation =
        recommendationOfTier ((generateConfidentResult threshold r).confidence) := by
  intro threshold r
  unfold generateConfidentResult
  cases hr : r.analysis with
  | some analysis =>
    dsimp only
    by_cases h : analysis.key.confidence > threshold ∧ analysis.bpm.confidence > threshold
    · rw [if_pos h]
      rfl
    · rw [if_neg h]
      rfl
  | none =>
    dsimp only
    cases hw : r.webData with
    | some l =>
      cases l with
      | nil => rfl
      | cons rec rest => rfl
    | none => rfl

/-- Initialisation never touches the analysis cache. -/
theorem initAnalyzer_cache (s : AnalyzerState) (o : Except String Unit) :
    ((initAnalyzer s o).2).analysisCache = s.analysisCache := by
  unfold initAnalyzer
  split
  · rfl
  · split
    · rfl
    · split <;> rfl

/-- A state is ready when the instance flag is set or the cached
initialisation promise has settled successfully; initialisation then
returns at once without touching the state. -/
theorem initAnalyzer_ok_of_ready (s : AnalyzerState) (o : Except String Unit)
    (h : s.isInitialized = true ∨ s.initResult = some (Except.ok ())) :
    initAnalyzer s o = (Except.ok (), s) := by
  cases hi : s.isInitialized with
  | true => simp [initAnalyzer, hi]
  | false =>
    rcases h with h | h
    · rw [hi] at h
      cases h
    · simp [initAnalyzer, hi, h]

/-- After a successful initialisation the resulting state is ready. -/
theorem initAnalyzer_ready_after (s : AnalyzerState) (o : Except String Unit)
    (h : (initAnalyzer s o).1 = Except.ok ()) :
    (initAnalyzer s o).2.isInitialized = true ∨
      (initAnalyzer s o).2.initResult = some (Except.ok ()) := by
  cases hi : s.isInitialized with
  | true =>
    left
    simp [initAnalyzer, hi]
  | false =>
    cases hr : s.initResult with
    | some r =>
      cases r with
      | ok u =>
        cases u
        right
        simp [initAnalyzer, hi, hr]
      | error e =>
        exfalso
        simp [initAnalyzer, hi, hr] at h
    | none =>
      cases ho : o with
      | ok u =>
        cases u
        left
        simp [initAnalyzer, hi, hr]
      | error e =>
        exfalso
        rw [ho] at h
        simp [initAnalyzer, hi, hr] at h

/-- After a successful analyzeSong call, the post-call state is ready
(initialised, or holding a settled successful initialisation) and its
cache maps the cache key of the call to the returned bundle. -/
theorem analyzeSong_ok_state_props
    (s : AnalyzerState) (c : Collaborators) (n : Nat)
    (t : String) (a : Option String) (r : Results)
    (h : (analyzeSong s c n t a).returned = Except.ok r) :
    ((analyzeSong s c n t a).state.isInitialized = true ∨
      (analyzeSong s c n t a).state.initResult = some (Except.ok ())) ∧
    (analyzeSong s c n t a).state.analysisCache.lookup (cacheKeyOf t a n) = some r := by
  cases h1 : initAnalyzer s c.initOutcome with
  | mk res s1 =>
    cases res with
    | error e =>
      exfalso
      unfold analyzeSong at h
      rw [h1] at h
      simp at h
    | ok u =>
      cases u
      have hready : s1.isInitialized = true ∨ s1.initResult = some (Except.ok ()) := by
        have := initAnalyzer_ready_after s c.initOutcome (by rw [h1])
        rw [h1] at this
        exact this
      unfold analyzeSong at h ⊢
      rw [h1] at h ⊢
      dsimp only at h ⊢
      cases hlook : s1.analysisCache.lookup (cacheKeyOf t a n) with
      | some cached =>
        rw [hlook] at h
        dsimp only at h ⊢
        injection h with h2
        subst h2
        exact ⟨hready, hlook⟩
      | none =>
        rw [hlook] at h
        dsimp only at h ⊢
        injection h with h2
        subst h2
        refine ⟨hready, ?_⟩
        simp [List.lookup]

/-- Whenever a first analyzeSong call returned a bundle, any later call
whose cache key coincides returns that same bundle from the cache and
runs neither the native nor the lookup path. -/
theorem analyze_second_call_cached
    (s : AnalyzerState) (c c2 : Collaborators) (n n2 : Nat)
    (t t2 : String) (a a2 : Option String) (r : Results)
    (hkey : cacheKeyOf t2 a2 n2 = cacheKeyOf t a n)
    (h : (analyzeSong s c n t a).returned = Except.ok r) :
    (analyzeSong (analyzeSong s c n t a).state c2 n2 t2 a2).returned = Except.ok r ∧
    (analyzeSong (analyzeSong s c n t a).state c2 n2 t2 a2).ranNative = false ∧
    (analyzeSong (analyzeSong s c n t a).state c2 n2 t2 a2).ranLookup = false := by
  obtain ⟨hready, hfind⟩ := analyzeSong_ok_state_props s c n t a r h
  revert hready hfind
  generalize (analyzeSong s c n t a).state = S
  intro hready hfind
  unfold analyzeSong
  rw [initAnalyzer_ok_of_ready _ c2.initOutcome hready]
  dsimp only
  rw [hkey, hfind]
  exact ⟨rfl, rfl, rfl⟩

/-- A call is total once initialisation has succeeded: the returned
value is an ok bundle, never an error. -/
theorem analyzeSong_ok_isOk
    (s : AnalyzerState) (c : Collaborators) (n : Nat) (t : String) (a : Option String)
    (hinit : (initAnalyzer s c.initOutcome).1 = Except.ok ()) :
    ((analyzeSong s c n t a).returned).isOk = true := by
  cases h1 : initAnalyzer s c.initOutcome with
  | mk res s1 =>
    cases res with
    | error e =>
      rw [h1] at hinit
      simp at hinit
    | ok u =>
      cases u
      unfold analyzeSong
      rw [h1]
      dsimp only
      cases hlook : s1.analysisCache.lookup (cacheKeyOf t a n) with
      | some cached => rfl
      | none => rfl

/-- A cache miss where both collaborators fail yields the none/low
terminal bundle. -/
theorem analyzeSong_miss_both_fail
    (s : AnalyzerState) (c : Collaborators) (n : Nat) (t : String) (a : Option String)
    (e1 e2 : String)
    (hinit : (initAnalyzer s c.initOutcome).1 = Except.ok ())
    (hmiss : s.analysisCache.lookup (cacheKeyOf t a n) = none)
    (hn : c.nativeOutcome = Except.error e1)
    (hl : c.lookupOutcome = Except.error e2) :
    (analyzeSong s c n t a).returned = Except.ok (failureBundle t a) := by
  cases h1 : initAnalyzer s c.initOutcome with
  | mk res s1 =>
    cases res with
    | error e =>
      rw [h1] at hinit
      simp at hinit
    | ok u =>
      cases u
      have hc : s1.analysisCache = s.analysisCache := by
        have := initAnalyzer_cache s c.initOutcome
        rw [h1] at this
        exact this
      unfold analyzeSong
      rw [h1]
      dsimp only
      rw [hc, hmiss]
      dsimp only
      rw [hn, hl]
      rfl

/-- C3 counterexample: when initialisation fails, analyzeSong raises
the initialisation error to its caller instead of returning a
result (the await of initialize is outside every try/catch). -/
theorem analyze_init_failure_raises :
    (analyzeSong initialState initFails 1000 "Song" none).returned =
      Except.error "EssentiaWASM not loaded" := rfl

/-- C3 amended: analyzeSong raises only when initialisation fails; on
every input whose initialisation succeeds it returns a bundle, and in
the worst case - cache miss with both the native and the lookup path
failing - that bundle carries the Unknown/0/low/none terminal fusion
result. -/
theorem analyze_raises_only_on_init_failure :
    (∀ (s : AnalyzerState) (c : Collaborators) (n : Nat) (t : String) (a : Option String),
       (initAnalyzer s c.initOutcome).1 = Except.ok () →
       ((analyzeSong s c n t a).returned).isOk = true) ∧
    (∀ (s : AnalyzerState) (c : Collaborators) (n : Nat) (t : String) (a : Option String)
       (e1 e2 : String),
       (initAnalyzer s c.initOutcome).1 = Except.ok () →
       s.analysisCache.lookup (cacheKeyOf t a n) = none →
       c.nativeOutcome = Except.error e1 →
       c.lookupOutcome = Except.error e2 →
       (analyzeSong s c n t a).returned = Except.ok (failureBundle t a)) :=
  ⟨fun s c n t a hinit => analyzeSong_ok_isOk s c n t a hinit,
   fun s c n t a e1 e2 hinit hmiss hn hl =>
     analyzeSong_miss_both_fail s c n t a e1 e2 hinit hmiss hn hl⟩

/-- Witness for C3 amended: with successful initialisation and both
paths failing, the call still returns ok. -/
theorem analyze_raises_only_on_init_failure_witness :
    ((analyzeSong initialState bothPathsFail 7 "t" none).returned).isOk = true :=
  analyze_raises_only_on_init_failure.1 initialState bothPathsFail 7 "t" none rfl

/-- C5: when a first analyzeSong call with some title, artist and audio
size returned a bundle, a second call with the identical triple returns
exactly that stored bundle and performs neither the native analysis
path nor the lookup path, whatever its own collaborators would have
produced. -/
theorem cache_hit_identical_request
    (s : AnalyzerState) (c c2 : Collaborators) (n : Nat) (t : String) (a : Option String)
    (r : Results)
    (h : (analyzeSong s c n t a).returned = Except.ok r) :
    (analyzeSong (analyzeSong s c n t a).state c2 n t a).returned = Except.ok r ∧
    (analyzeSong (analyzeSong s c n t a).state c2 n t a).ranNative = false ∧
    (analyzeSong (analyzeSong s c n t a).state c2 n t a).ranLookup = false :=
  analyze_second_call_cached s c c2 n n t t a a r rfl h

/-- Witness for C5: the second call for the song analysed by
allPathsSucceed returns the stored bundle without running either
path. -/
theorem cache_hit_identical_request_witness :
    (analyzeSong (analyzeSong initialState allPathsSucceed 5 "song" none).state
      bothPathsFail 5 "song" none).returned = Except.ok firstBundle ∧
    (analyzeSong (analyzeSong initialState allPathsSucceed 5 "song" none).state
      bothPathsFail 5 "song" none).ranNative = false ∧
    (analyzeSong (analyzeSong initialState allPathsSucceed 5 "song" none).state
      bothPathsFail 5 "song" none).ranLookup = false :=
  cache_hit_identical_request initialState allPathsSucceed bothPathsFail 5 "song" none
    firstBundle rfl

/-- C9: the cache key is the dash-joined concatenation of title, artist
and byte length, which is not injective: title a-b with artist c and
title a with artist b-c collide for every size, and after a first call
for the one, a call for the other returns the cached bundle of the
first request without analysing its own inputs. -/
theorem cacheKey_collision_behaviour :
    (∀ n : Nat, cacheKeyOf "a-b" (some "c") n = cacheKeyOf "a" (some "b-c") n) ∧
    (∀ (s : AnalyzerState) (c c2 : Collaborators) (n : Nat) (r : Results),
       (analyzeSong s c n "a-b" (some "c")).returned = Except.ok r →
       (analyzeSong (analyzeSong s c n "a-b" (some "c")).state c2 n "a" (some "b-c")).returned =
         Except.ok r ∧
       (analyzeSong (analyzeSong s c n "a-b" (some "c")).state c2 n "a" (some "b-c")).ranNative =
         false ∧
       (analyzeSong (analyzeSong s c n "a-b" (some "c")).state c2 n "a" (some "b-c")).ranLookup =
         false) := by
  have hk : ∀ n : Nat, cacheKeyOf "a-b" (some "c") n = cacheKeyOf "a" (some "b-c") n := by
    intro n
    show "a-b" ++ "-" ++ "c" ++ "-" ++ toString n = "a" ++ "-" ++ "b-c" ++ "-" ++ toString n
    have hpre : ("a-b" ++ "-" ++ "c" ++ "-" : String) = "a" ++ "-" ++ "b-c" ++ "-" := by decide
    exact congrArg (fun x => x ++ toString n) hpre
  exact ⟨hk, fun s c c2 n r h =>
    analyze_second_call_cached s c c2 n n "a-b" "a" (some "c") (some "b-c") r (hk n).symm h⟩

/-- Witness for C9: after analysing title a-b by artist c, the request
for title a by artist b-c of the same size is answered from the cache
with the bundle of the first request. -/
theorem cacheKey_collision_behaviour_witness :
    (analyzeSong (analyzeSong initialState bothPathsFail 3 "a-b" (some "c")).state
      allPathsSucceed 3 "a" (some "b-c")).returned =
        Except.ok (failureBundle "a-b" (some "c")) ∧
    (analyzeSong (analyzeSong initialState bothPathsFail 3 "a-b" (some "c")).state
      allPathsSucceed 3 "a" (some "b-c")).ranNative = false ∧
    (analyzeSong (analyzeSong initialState bothPathsFail 3 "a-b" (some "c")).state
      allPathsSucceed 3 "a" (some "b-c")).ranLookup = false :=
  cacheKey_collision_behaviour.2 initialState bothPathsFail allPathsSucceed 3
    (failureBundle "a-b" (some "c")) rfl

/-- C10: a cache miss stores its bundle unconditionally, even the
none/low failure bundle produced when both paths yielded nothing, and a
later call with the same key returns that failure bundle without
re-attempting either path. -/
theorem failure_bundle_cached
    (s : AnalyzerState) (c c2 : Collaborators) (n : Nat) (t : String) (a : Option String)
    (e1 e2 : String)
    (hinit : (initAnalyzer s c.initOutcome).1 = Except.ok ())
    (hmiss : s.analysisCache.lookup (cacheKeyOf t a n) = none)
    (hn : c.nativeOutcome = Except.error e1)
    (hl : c.lookupOutcome = Except.error e2) :
    (analyzeSong s c n t a).returned = Except.ok (failureBundle t a) ∧
    (analyzeSong s c n t a).state.analysisCache.lookup (cacheKeyOf t a n) =
      some (failureBundle t a) ∧
    (analyzeSong (analyzeSong s c n t a).state c2 n t a).returned =
      Except.ok (failureBundle t a) ∧
    (analyzeSong (analyzeSong s c n t a).state c2 n t a).ranNative = false ∧
    (analyzeSong (analyzeSong s c n t a).state c2 n t a).ranLookup = false := by
  have hret := analyzeSong_miss_both_fail s c n t a e1 e2 hinit hmiss hn hl
  have hprops := analyzeSong_ok_state_props s c n t a (failureBundle t a) hret
  have hsecond := analyze_second_call_cached s c c2 n n t t a a (failureBundle t a) rfl hret
  exact ⟨hret, hprops.2, hsecond.1, hsecond.2.1, hsecond.2.2⟩

/-- Witness for C10 with collaborators whose both paths fail. -/
theorem failure_bundle_cached_witness :
    (analyzeSong initialState bothPathsFail 7 "w" none).returned =
      Except.ok (failureBundle "w" none) ∧
    (analyzeSong initialState bothPathsFail 7 "w" none).state.analysisCache.lookup
      (cacheKeyOf "w" none 7) = some (failureBundle "w" none) ∧
    (analyzeSong (analyzeSong initialState bothPathsFail 7 "w" none).state
      bothPathsFail 7 "w" none).returned = Except.ok (failureBundle "w" none) ∧
    (analyzeSong (analyzeSong initialState bothPathsFail 7 "w" none).state
      bothPathsFail 7 "w" none).ranNative = false ∧
    (analyzeSong (analyzeSong initialState bothPathsFail 7 "w" none).state
      bothPathsFail 7 "w" none).ranLookup = false :=
  failure_bundle_cached initialState bothPathsFail bothPathsFail 7 "w" none
    "decode failed" "network failed" rfl rfl rfl rfl

/-- Witness for C7 at the all-zero chromagram against the C major
profile. -/
theorem correlation_zero_variance_guard_witness :
    calculateCorrelation (List.replicate 12 0) (scaleProfile 0 majorScale) = 0 :=
  correlation_zero_variance_guard.1 (List.replicate 12 0) (scaleProfile 0 majorScale)
    (by decide) (by decide) (Or.inl (by decide))

/-- Witness for C8: one valid frame plus one 3-element frame estimates
exactly as classifying the valid frame. -/
theorem estimateKey_skips_invalid_frames_witness :
    analyzeKeyFromHPCP [scaleProfile 0 majorScale, [1, 2, 3]] =
      classifyChroma (scaleProfile 0 majorScale) :=
  estimateKey_skips_invalid_frames.2.2 (scaleProfile 0 majorScale) [1, 2, 3]
    (by decide) (by decide)

end WavOracle
